import Mathlib

/-!
Verification of the environment-handling core of the tox-current-env plugin
(src/tox_current_env/hooks.py), shallowly embedded in Lean.

The on-disk state of one target environment is abstracted to three booleans:
whether the bin directory exists, whether the expected interpreter path
(`get_envpython()`) exists, and whether the colocated `activate` file exists.
Every filesystem query the source performs factors through these three
existence checks, so the hooks become pure functions of this record.
Options (`config.option.*`) become a record of booleans; a configured
`print_deps_to` sink is abstracted to the boolean fact that a sink is set.
Python exceptions become `Except` errors; each hook also returns the final
filesystem state (mutations performed before a raise survive it, as in
Python) and a trace of the interesting events it performed, in order.
-/

namespace ToxCurrentEnv

/-- On-disk state of one target environment: existence of the bin directory
(the parent of the interpreter path), of the interpreter path itself, and of
the colocated `activate` file. -/
structure FS where
  bindir : Bool
  python : Bool
  activate : Bool
deriving DecidableEq, Repr

/-- The plugin options after `tox_configure` ran: `config.option.current_env`,
`config.option.print_deps_only`, whether `config.option.print_deps_to` holds a
sink (truthy), and `config.option.recreate`. -/
structure Opt where
  current_env : Bool
  print_deps_only : Bool
  print_deps_to : Bool
  recreate : Bool
deriving DecidableEq, Repr

/-- The raw command-line options before `tox_configure` ran. -/
structure RawOpt where
  current_env : Bool
  print_deps_only : Bool
  print_deps_to : Bool
  recreate : Bool
deriving DecidableEq, Repr

/-- Events a hook can perform, in order: a successful compatibility check
(`unsupported_raise` returning without raising), a `rm_venv` call, the
creation of the symlink/junction, and printing the dependencies. -/
inductive Event
  | guardOk
  | destroy
  | makeRedirect
  | printDeps
deriving DecidableEq, Repr

/-- Errors raised by `unsupported_raise`: the two distinguishable
`ConfigError` messages for a regular run over a current-env link (depending
on whether the host exposes `tox_cleanup`), and the `ConfigError` for
`--current-env` over a proper venv. -/
inductive GuardErr
  | staleRedirectCleanup
  | staleRedirectNoCleanup
  | staleMaterialized
deriving DecidableEq, Repr

/-- Errors raised by `tox_testenv_create`: `InterpreterNotFound` when the
requested python version cannot be determined, `InterpreterMismatch`
carrying the current-env version tuple and the requested version tuple, and
a `FileExistsError` from `os.makedirs` or `os.symlink`. -/
inductive CreateErr
  | interpreterNotFound
  | interpreterMismatch (current requested : List Nat)
  | fileExists
deriving DecidableEq, Repr

/-- The `ConfigError` raised by `tox_configure` when `--print-deps-only` is
combined with `--print-deps-to`. -/
inductive ConfigureErr
  | printDepsOnlyWithPrintDepsTo
deriving DecidableEq, Repr

/-- Equality of `Except` values is decidable when it is on both components;
needed to settle concrete hook runs by `decide`. -/
instance {ε α : Type} [DecidableEq ε] [DecidableEq α] :
    DecidableEq (Except ε α) := fun x y =>
  match x, y with
  | .ok a, .ok b =>
    if h : a = b then .isTrue (by simp [h]) else .isFalse (by simp [h])
  | .error a, .error b =>
    if h : a = b then .isTrue (by simp [h]) else .isFalse (by simp [h])
  | .ok _, .error _ => .isFalse (by simp)
  | .error _, .ok _ => .isFalse (by simp)

/-- `_python_activate_exists(venv)`: the pair of existence checks
`os.path.exists(python), os.path.exists(activate)`.  A missing bin directory
makes both paths nonexistent, which the `FS` record represents by
`python = false` and `activate = false`. -/
def _python_activate_exists (fs : FS) : Bool × Bool :=
  (fs.python, fs.activate)

/-- `is_current_env_link(venv)`: interpreter path exists, `activate` does not. -/
def is_current_env_link (fs : FS) : Bool :=
  let (python, activate) := _python_activate_exists fs
  python && !activate

/-- `is_proper_venv(venv)`: both the interpreter path and `activate` exist. -/
def is_proper_venv (fs : FS) : Bool :=
  let (python, activate) := _python_activate_exists fs
  python && activate

/-- `is_any_env(venv)`: the interpreter path exists. -/
def is_any_env (fs : FS) : Bool :=
  (_python_activate_exists fs).1

/-- `rm_venv(venv)`: `shutil.rmtree` of the environment root with
`ignore_errors=True` — total (never raises, also when nothing exists) and it
removes the bin directory, the interpreter path and `activate` together. -/
def rm_venv (_fs : FS) : FS :=
  ⟨false, false, false⟩

/-- `os.makedirs(os.path.dirname(link))` with the default
`exist_ok=False`: raises `FileExistsError` when the bin directory exists,
otherwise creates it. -/
def os_makedirs (fs : FS) : Except Unit FS :=
  if fs.bindir then .error () else .ok { fs with bindir := true }

/-- `os.symlink(target, link)` (or the `mklink /J` junction on Windows):
raises when the link path already exists, otherwise makes the interpreter
path exist. -/
def os_symlink (fs : FS) : Except Unit FS :=
  if fs.python then .error () else .ok { fs with python := true }

/-- The three environment shapes of the specification. -/
inductive Shape
  | Absent
  | Redirect
  | Materialized
deriving DecidableEq, Repr

/-- The shape inspected from the two existence checks: `Materialized` when
`is_proper_venv`, `Redirect` when `is_current_env_link`, otherwise `Absent`. -/
def shapeOf (fs : FS) : Shape :=
  if is_proper_venv fs then .Materialized
  else if is_current_env_link fs then .Redirect
  else .Absent

/-- The three run modes of the specification, mapped to the option flags the
source actually branches on. -/
inductive Mode
  | Regular
  | CurrentEnv
  | PrintDeps
deriving DecidableEq, Repr

/-- Options corresponding to a run mode: `Regular` sets neither flag,
`CurrentEnv` sets `--current-env`, `PrintDeps` sets a `--print-deps-to`
sink. -/
def Mode.opt (m : Mode) (recreate : Bool) : Opt :=
  match m with
  | .Regular => ⟨false, false, false, recreate⟩
  | .CurrentEnv => ⟨true, false, false, recreate⟩
  | .PrintDeps => ⟨false, false, true, recreate⟩

/-- A canonical filesystem state of each shape. -/
def Shape.fs : Shape → FS
  | .Absent => ⟨false, false, false⟩
  | .Redirect => ⟨true, true, false⟩
  | .Materialized => ⟨true, true, true⟩

/-- `unsupported_raise(config, venv)`.  `has_cleanup` models
`hasattr(tox.hookspecs, "tox_cleanup")`, which only selects between the two
stale-redirect error messages. -/
def unsupported_raise (opt : Opt) (has_cleanup : Bool) (fs : FS) :
    Except GuardErr Unit :=
  if opt.recreate then .ok ()
  else
    let regular := !(opt.current_env || opt.print_deps_to)
    if regular && is_current_env_link fs then
      .error (if has_cleanup then .staleRedirectCleanup else .staleRedirectNoCleanup)
    else if opt.current_env && is_proper_venv fs then
      .error .staleMaterialized
    else
      .ok ()

/-- `tox_testenv_create(venv, action)`.  `host` is `sys.version_info`,
`requested` is `venv.envconfig.python_info.version_info` (`none` models
Python `None`).  Returns the hook result (`some true` = handled, `none` =
defer to tox), the final filesystem state, and the event trace.  In the
source, `create_fake_env = check_version = config.option.current_env`; then
under `print_deps_to`, either the hook returns early (some environment
exists) or `create_fake_env` is set to `True`, so past the early return
`create_fake_env = current_env || print_deps_to`. -/
def tox_testenv_create (opt : Opt) (host : List Nat)
    (requested : Option (List Nat)) (fs : FS) :
    Except CreateErr (Option Bool) × FS × List Event :=
  let check_version := opt.current_env
  if opt.print_deps_to && is_any_env fs then
    (.ok (some true), fs, [])
  else
    let create_fake_env := opt.current_env || opt.print_deps_to
    match (if check_version then
             match requested with
             | none => some CreateErr.interpreterNotFound
             | some version_info =>
               if version_info.take 2 ≠ host.take 2 then
                 some (CreateErr.interpreterMismatch host version_info)
               else none
           else none) with
    | some e => (.error e, fs, [])
    | none =>
      if create_fake_env then
        let fs1 := rm_venv fs
        match os_makedirs fs1 with
        | .error _ => (.error .fileExists, fs1, [.destroy])
        | .ok fs2 =>
          match os_symlink fs2 with
          | .error _ => (.error .fileExists, fs2, [.destroy])
          | .ok fs3 => (.ok (some true), fs3, [.destroy, .makeRedirect])
      else
        if !is_proper_venv fs then
          (.ok none, rm_venv fs, [.destroy])
        else
          (.ok none, fs, [])

/-- `tox_package(session, venv)`: only runs the compatibility check. -/
def tox_package (opt : Opt) (has_cleanup : Bool) (fs : FS) :
    Except GuardErr Unit × FS × List Event :=
  match unsupported_raise opt has_cleanup fs with
  | .error e => (.error e, fs, [])
  | .ok _ => (.ok (), fs, [.guardOk])

/-- `tox_testenv_install_deps(venv, action)`: compatibility check, then
report handled (install nothing) when either flag is set. -/
def tox_testenv_install_deps (opt : Opt) (has_cleanup : Bool) (fs : FS) :
    Except GuardErr (Option Bool) × FS × List Event :=
  match unsupported_raise opt has_cleanup fs with
  | .error e => (.error e, fs, [])
  | .ok _ =>
    if opt.current_env || opt.print_deps_to then
      (.ok (some true), fs, [.guardOk])
    else
      (.ok none, fs, [.guardOk])

/-- The lines written to the sink by
`print(*deps, sep="\n", file=sink)`: each argument on its own line; a call
with no arguments writes a single empty line. -/
def print_lines (args : List String) : List String :=
  match args with
  | [] => [""]
  | _ => args

/-- `tox_runtest(venv, redirect)`: compatibility check, then under a
`print_deps_to` sink print the resolved dependencies to it and report
handled.  Returns the hook result, the final filesystem state, the lines
written to the sink, and the event trace. -/
def tox_runtest (opt : Opt) (has_cleanup : Bool) (deps : List String)
    (fs : FS) :
    Except GuardErr (Option Bool) × FS × List String × List Event :=
  match unsupported_raise opt has_cleanup fs with
  | .error e => (.error e, fs, [], [])
  | .ok _ =>
    if opt.print_deps_to then
      (.ok (some true), fs, print_lines deps, [.guardOk, .printDeps])
    else
      (.ok none, fs, [], [.guardOk])

/-- `tox_cleanup(session)`: for every venv of the session, remove it when it
is a current-env link; real venvs are kept. -/
def tox_cleanup (envs : List FS) : List FS :=
  envs.map (fun fs => if is_current_env_link fs then rm_venv fs else fs)

/-- The configuration resulting from `tox_configure`: the stored options,
plus `config.skipsdist` and whether `whitelist_externals = "*"` was forced
on every testenv. -/
structure Config where
  opt : Opt
  skipsdist : Bool
  whitelist_externals_all : Bool
deriving DecidableEq, Repr

/-- `tox_configure(config)`.  `skipsdist0` and `whitelist0` are the values
the configuration had before the hook ran (they are only overwritten, never
cleared).  Under `--print-deps-only`, a missing sink is replaced by stdout
(so `print_deps_to` becomes true) and a present sink is a `ConfigError`. -/
def tox_configure (raw : RawOpt) (skipsdist0 whitelist0 : Bool) :
    Except ConfigureErr Config :=
  match (if raw.print_deps_only then
           (if raw.print_deps_to then none else some true)
         else some raw.print_deps_to) with
  | none => .error .printDepsOnlyWithPrintDepsTo
  | some print_deps_to =>
    let opt : Opt :=
      ⟨raw.current_env, raw.print_deps_only, print_deps_to, raw.recreate⟩
    if opt.current_env || opt.print_deps_to then
      .ok ⟨opt, true, true⟩
    else
      .ok ⟨opt, skipsdist0, whitelist0⟩

/-- Whether an event mutates the filesystem. -/
def mutEvent : Event → Bool
  | .destroy => true
  | .makeRedirect => true
  | _ => false

/-- Helper: every mutation event in the trace is preceded by a `guardOk`
event, given whether one was already seen. -/
def guardedFrom : Bool → List Event → Bool
  | _, [] => true
  | _, .guardOk :: rest => guardedFrom true rest
  | seen, e :: rest => (!mutEvent e || seen) && guardedFrom seen rest

/-- A trace is guarded when every mutation event in it is preceded by a
successful compatibility check. -/
def guarded (t : List Event) : Bool :=
  guardedFrom false t

end ToxCurrentEnv

namespace ToxCurrentEnv

/-- Claim C1: for every mode, shape, and recreate flag, `unsupported_raise`
succeeds whenever recreate is requested; with recreate false it fails
exactly when the mode is Regular and the shape is Redirect, or the mode is
CurrentEnv and the shape is Materialized, and succeeds in every other
combination (whichever stale-redirect message variant is selected). -/
theorem guard_truth_table (m : Mode) (s : Shape) (r hc : Bool) :
    (unsupported_raise (m.opt r) hc s.fs = .ok ()) ↔
      (r = true ∨
        ¬((m = .Regular ∧ s = .Redirect) ∨
          (m = .CurrentEnv ∧ s = .Materialized))) := by
  cases m <;> cases s <;> cases r <;> cases hc <;> decide

/-- Claim C4: the inspected shape is Absent exactly when the interpreter
path does not exist (whether or not the bin directory exists), Redirect
exactly when the interpreter path exists and the activation artifact does
not, Materialized exactly when both exist; and the shape depends on nothing
but the two existence checks. -/
theorem inspect_shape_of_existence (b b' p a : Bool) :
    (shapeOf ⟨b, p, a⟩ = .Absent ↔ p = false) ∧
    (shapeOf ⟨b, p, a⟩ = .Redirect ↔ (p = true ∧ a = false)) ∧
    (shapeOf ⟨b, p, a⟩ = .Materialized ↔ (p = true ∧ a = true)) ∧
    shapeOf ⟨b, p, a⟩ = shapeOf ⟨b', p, a⟩ := by
  cases b <;> cases b' <;> cases p <;> cases a <;> decide

/-- Claim C7: destroying a target yields the Absent shape from every prior
state, and destroying twice is the same as destroying once; `rm_venv` is a
total function (`shutil.rmtree` is called with `ignore_errors=True`), so it
never raises, in particular not when nothing exists. -/
theorem destroy_then_inspect_absent (fs : FS) :
    shapeOf (rm_venv fs) = .Absent ∧ rm_venv (rm_venv fs) = rm_venv fs :=
  ⟨rfl, rfl⟩

/-- Claim C6: session cleanup destroys every venv whose shape is Redirect
(it becomes Absent) and leaves every Materialized venv untouched. -/
theorem cleanup_redirects_only (envs : List FS) (i : Nat)
    (h : i < envs.length) (h2 : i < (tox_cleanup envs).length) :
    (shapeOf envs[i] = .Redirect → shapeOf (tox_cleanup envs)[i] = .Absent) ∧
    (shapeOf envs[i] = .Materialized → (tox_cleanup envs)[i] = envs[i]) := by
  have hmap : (tox_cleanup envs)[i] =
      (fun fs => if is_current_env_link fs then rm_venv fs else fs) envs[i] := by
    simp [tox_cleanup]
  rw [hmap]
  generalize envs[i] = x
  rcases x with ⟨b, p, a⟩
  cases b <;> cases p <;> cases a <;> decide

/-- Witness for C6: the spec scenario with one Redirect and one Materialized
target; after cleanup the first is Absent and the second unchanged. -/
theorem cleanup_redirects_only_witness :
    ((shapeOf (([⟨true, true, false⟩, ⟨true, true, true⟩] : List FS))[0] = .Redirect →
        shapeOf (tox_cleanup [⟨true, true, false⟩, ⟨true, true, true⟩])[0] = .Absent) ∧
      (shapeOf (([⟨true, true, false⟩, ⟨true, true, true⟩] : List FS))[0] = .Materialized →
        (tox_cleanup [⟨true, true, false⟩, ⟨true, true, true⟩])[0] =
          (([⟨true, true, false⟩, ⟨true, true, true⟩] : List FS))[0])) ∧
    ((shapeOf (([⟨true, true, false⟩, ⟨true, true, true⟩] : List FS))[1] = .Redirect →
        shapeOf (tox_cleanup [⟨true, true, false⟩, ⟨true, true, true⟩])[1] = .Absent) ∧
      (shapeOf (([⟨true, true, false⟩, ⟨true, true, true⟩] : List FS))[1] = .Materialized →
        (tox_cleanup [⟨true, true, false⟩, ⟨true, true, true⟩])[1] =
          (([⟨true, true, false⟩, ⟨true, true, true⟩] : List FS))[1])) :=
  ⟨cleanup_redirects_only [⟨true, true, false⟩, ⟨true, true, true⟩] 0
      (by decide) (by decide),
    cleanup_redirects_only [⟨true, true, false⟩, ⟨true, true, true⟩] 1
      (by decide) (by decide)⟩

end ToxCurrentEnv

namespace ToxCurrentEnv

/-- Claim C5: in CurrentEnv mode at the provisioning callback, a host
interpreter version differing from the requested version at major.minor
granularity makes the hook fail with `InterpreterMismatch` carrying both
version tuples, with the filesystem state unchanged and no mutation event
performed, from any prior state. -/
theorem currentenv_create_version_mismatch (r : Bool) (host req : List Nat)
    (fs : FS) (hne : req.take 2 ≠ host.take 2) :
    tox_testenv_create (Mode.opt .CurrentEnv r) host (some req) fs =
      (.error (.interpreterMismatch host req), fs, []) := by
  simp [tox_testenv_create, Mode.opt, hne]

/-- Witness for C5: requested version 3.11 against host 3.9 on an Absent
target fails with the mismatch error and the target stays Absent. -/
theorem currentenv_create_version_mismatch_witness :
    tox_testenv_create (Mode.opt .CurrentEnv false) [3, 9, 0]
        (some [3, 11, 0]) ⟨false, false, false⟩ =
      (.error (.interpreterMismatch [3, 9, 0] [3, 11, 0]),
        ⟨false, false, false⟩, []) :=
  currentenv_create_version_mismatch false [3, 9, 0] [3, 11, 0]
    ⟨false, false, false⟩ (by decide)

/-- Claim C8: in PrintDeps mode at the test-execution callback (the guard
always permits in this mode), the hook reports handled, writes exactly the
resolver-returned dependency lines to the sink, in order, and leaves the
filesystem untouched; the first `deps.length` lines written are exactly
`deps`. -/
theorem printdeps_runtest_prints (r hc : Bool) (deps : List String)
    (fs : FS) :
    tox_runtest (Mode.opt .PrintDeps r) hc deps fs =
      (.ok (some true), fs, print_lines deps, [.guardOk, .printDeps]) ∧
    (print_lines deps).take deps.length = deps := by
  constructor
  · cases r <;>
      simp [tox_runtest, unsupported_raise, Mode.opt, is_current_env_link,
        _python_activate_exists]
  · cases deps <;> simp [print_lines]

/-- Claim C9: provisioning in CurrentEnv mode with a matching major.minor
version is idempotent: from any prior state it reports handled, leaves the
shape Redirect, and a second invocation from the resulting state succeeds
again without error (the redirect is removed and recreated, so `os.makedirs`
and `os.symlink` never collide). -/
theorem currentenv_create_idempotent (r : Bool) (host req : List Nat)
    (fs : FS) (hm : req.take 2 = host.take 2) :
    tox_testenv_create (Mode.opt .CurrentEnv r) host (some req) fs =
      (.ok (some true), ⟨true, true, false⟩, [.destroy, .makeRedirect]) ∧
    shapeOf ⟨true, true, false⟩ = .Redirect ∧
    tox_testenv_create (Mode.opt .CurrentEnv r) host (some req)
        ⟨true, true, false⟩ =
      (.ok (some true), ⟨true, true, false⟩, [.destroy, .makeRedirect]) := by
  refine ⟨?_, by decide, ?_⟩ <;>
    simp [tox_testenv_create, Mode.opt, hm, rm_venv, os_makedirs, os_symlink]

/-- Witness for C9: matching versions 3.12 on an Absent target; both the
first and the second invocation yield the Redirect shape with no error. -/
theorem currentenv_create_idempotent_witness :
    tox_testenv_create (Mode.opt .CurrentEnv false) [3, 12, 0]
        (some [3, 12, 5]) ⟨false, false, false⟩ =
      (.ok (some true), ⟨true, true, false⟩, [.destroy, .makeRedirect]) ∧
    shapeOf ⟨true, true, false⟩ = .Redirect ∧
    tox_testenv_create (Mode.opt .CurrentEnv false) [3, 12, 0]
        (some [3, 12, 5]) ⟨true, true, false⟩ =
      (.ok (some true), ⟨true, true, false⟩, [.destroy, .makeRedirect]) :=
  currentenv_create_idempotent false [3, 12, 0] [3, 12, 5]
    ⟨false, false, false⟩ (by decide)

end ToxCurrentEnv

namespace ToxCurrentEnv

/-- Counterexample to claim C2: the provisioning callback mutates without the
compatibility check.  In CurrentEnv mode on a Materialized target with
matching versions and recreate off, `tox_testenv_create` destroys the
environment and creates the redirect, yet its trace holds no preceding
`guardOk` — indeed `unsupported_raise` at this very state would have failed
with the stale-materialized error. -/
theorem create_mutates_without_guard :
    guarded (tox_testenv_create (Mode.opt .CurrentEnv false) [3, 12, 0]
        (some [3, 12, 5]) ⟨true, true, true⟩).2.2 = false ∧
    (tox_testenv_create (Mode.opt .CurrentEnv false) [3, 12, 0]
        (some [3, 12, 5]) ⟨true, true, true⟩).2.2.contains .destroy = true ∧
    unsupported_raise (Mode.opt .CurrentEnv false) true ⟨true, true, true⟩ =
      .error .staleMaterialized := by
  decide

/-- Claim C2 as amended: at the package/build, dependency-install, and
test-run callbacks, the compatibility check runs first and its failure
aborts the callback; these callbacks never mutate the filesystem, so their
traces are guarded, and a trace of the test-run callback is either empty (a
guard failure), a lone successful check, or a successful check followed by
the dependency printing — printing never precedes the check.  The
provisioning callback is excluded: it mutates without invoking the check. -/
theorem guard_first_at_package_install_run (opt : Opt) (hc : Bool)
    (deps : List String) (fs : FS) :
    guarded (tox_package opt hc fs).2.2 = true ∧
    (tox_package opt hc fs).2.2.any mutEvent = false ∧
    (tox_package opt hc fs).2.1 = fs ∧
    guarded (tox_testenv_install_deps opt hc fs).2.2 = true ∧
    (tox_testenv_install_deps opt hc fs).2.2.any mutEvent = false ∧
    (tox_testenv_install_deps opt hc fs).2.1 = fs ∧
    guarded (tox_runtest opt hc deps fs).2.2.2 = true ∧
    (tox_runtest opt hc deps fs).2.2.2.any mutEvent = false ∧
    (tox_runtest opt hc deps fs).2.1 = fs ∧
    (tox_runtest opt hc deps fs).2.2.2 ∈
      [([] : List Event), [.guardOk], [.guardOk, .printDeps]] := by
  rcases h : unsupported_raise opt hc fs with e | u
  · simp [tox_package, tox_testenv_install_deps, tox_runtest, h, guarded,
      guardedFrom]
  · cases hce : opt.current_env <;> cases hpd : opt.print_deps_to <;>
      simp [tox_package, tox_testenv_install_deps, tox_runtest, h, hce, hpd,
        guarded, guardedFrom, mutEvent]

/-- Counterexample to claim C3: in PrintDeps mode on an Absent target with a
version mismatch (host 3.9, requested 3.11), the provisioning callback does
not fail with the interpreter mismatch error — it creates the redirect and
reports handled, because the version check only runs under the current-env
flag. -/
theorem printdeps_create_no_version_check :
    tox_testenv_create (Mode.opt .PrintDeps false) [3, 9, 0]
        (some [3, 11, 0]) ⟨false, false, false⟩ =
      (.ok (some true), ⟨true, true, false⟩, [.destroy, .makeRedirect]) := by
  decide

/-- Claim C3 as amended: in PrintDeps mode at the provisioning callback,
when the shape is anything other than Absent the hook reports handled with
no action; when the shape is Absent it falls back to the redirect creation
of CurrentEnv mode but without the interpreter version check, so it
succeeds whatever the host and requested versions are. -/
theorem printdeps_create_behavior (r : Bool) (host : List Nat)
    (requested : Option (List Nat)) (fs : FS) :
    tox_testenv_create (Mode.opt .PrintDeps r) host requested fs =
      (if shapeOf fs = .Absent then
        (.ok (some true), ⟨true, true, false⟩, [.destroy, .makeRedirect])
      else
        (.ok (some true), fs, [])) := by
  rcases fs with ⟨b, p, a⟩
  cases b <;> cases p <;> cases a <;>
    simp [tox_testenv_create, Mode.opt, shapeOf, is_any_env, is_proper_venv,
      is_current_env_link, _python_activate_exists, rm_venv, os_makedirs,
      os_symlink]

end ToxCurrentEnv

namespace ToxCurrentEnv

/-- Counterexample to claim C10: the combined run does not behave as both
modes at once with respect to the version check.  With the current-env flag
and a print-deps sink both set, on an existing Redirect target with a
version mismatch (host 3.9, requested 3.11), the provisioning callback
returns early as handled without checking versions, while a pure current-env
run at the same state fails with the interpreter mismatch error. -/
theorem combined_flags_skip_version_check_on_existing :
    tox_testenv_create ⟨true, false, true, false⟩ [3, 9, 0]
        (some [3, 11, 0]) ⟨true, true, false⟩ =
      (.ok (some true), ⟨true, true, false⟩, []) ∧
    tox_testenv_create ⟨true, false, false, false⟩ [3, 9, 0]
        (some [3, 11, 0]) ⟨true, true, false⟩ =
      (.error (.interpreterMismatch [3, 9, 0] [3, 11, 0]),
        ⟨true, true, false⟩, []) := by
  decide

/-- Claim C10 as amended: requesting the current-env flag together with the
explicit print-deps sink flag is accepted by `tox_configure` without any
configuration error, while combining the deprecated print-deps-only alias
with the sink flag (with or without current-env) is rejected; in such a
combined run dependency installation is skipped, the dependencies are
printed at the test-run callback, the CurrentEnv staleness rule applies, and
the CurrentEnv version check applies when the target is Absent (when any
environment already exists, provisioning returns early without the version
check). -/
theorem combined_flags_behavior (r sd wl hc : Bool) (deps : List String)
    (host req : List Nat) (fs : FS)
    (hguard : unsupported_raise ⟨true, false, true, false⟩ hc fs = .ok ())
    (hne : req.take 2 ≠ host.take 2) :
    tox_configure ⟨true, false, true, r⟩ sd wl =
      .ok ⟨⟨true, false, true, r⟩, true, true⟩ ∧
    tox_configure ⟨true, true, true, r⟩ sd wl =
      .error .printDepsOnlyWithPrintDepsTo ∧
    tox_configure ⟨false, true, true, r⟩ sd wl =
      .error .printDepsOnlyWithPrintDepsTo ∧
    tox_testenv_install_deps ⟨true, false, true, false⟩ hc fs =
      (.ok (some true), fs, [.guardOk]) ∧
    tox_runtest ⟨true, false, true, false⟩ hc deps fs =
      (.ok (some true), fs, print_lines deps, [.guardOk, .printDeps]) ∧
    unsupported_raise ⟨true, false, true, false⟩ hc ⟨true, true, true⟩ =
      .error .staleMaterialized ∧
    tox_testenv_create ⟨true, false, true, false⟩ host (some req)
        ⟨false, false, false⟩ =
      (.error (.interpreterMismatch host req), ⟨false, false, false⟩, []) := by
  refine ⟨?_, ?_, ?_, ?_, ?_, ?_, ?_⟩
  · simp [tox_configure]
  · simp [tox_configure]
  · simp [tox_configure]
  · simp [tox_testenv_install_deps, hguard]
  · simp [tox_runtest, hguard]
  · simp [unsupported_raise, is_current_env_link, is_proper_venv,
      _python_activate_exists]
  · simp [tox_testenv_create, is_any_env, _python_activate_exists, hne]

/-- Witness for the amended C10: a combined run over an Absent target with
host version 3.9 and requested version 3.11; the guard passes on the Absent
target and every conjunct holds. -/
theorem combined_flags_behavior_witness :
    tox_configure ⟨true, false, true, false⟩ false false =
      .ok ⟨⟨true, false, true, false⟩, true, true⟩ ∧
    tox_configure ⟨true, true, true, false⟩ false false =
      .error .printDepsOnlyWithPrintDepsTo ∧
    tox_configure ⟨false, true, true, false⟩ false false =
      .error .printDepsOnlyWithPrintDepsTo ∧
    tox_testenv_install_deps ⟨true, false, true, false⟩ true
        ⟨false, false, false⟩ =
      (.ok (some true), ⟨false, false, false⟩, [.guardOk]) ∧
    tox_runtest ⟨true, false, true, false⟩ true ["pytest"]
        ⟨false, false, false⟩ =
      (.ok (some true), ⟨false, false, false⟩, print_lines ["pytest"],
        [.guardOk, .printDeps]) ∧
    unsupported_raise ⟨true, false, true, false⟩ true ⟨true, true, true⟩ =
      .error .staleMaterialized ∧
    tox_testenv_create ⟨true, false, true, false⟩ [3, 9, 0]
        (some [3, 11, 0]) ⟨false, false, false⟩ =
      (.error (.interpreterMismatch [3, 9, 0] [3, 11, 0]),
        ⟨false, false, false⟩, []) :=
  combined_flags_behavior false false false true ["pytest"] [3, 9, 0]
    [3, 11, 0] ⟨false, false, false⟩ (by decide) (by decide)

end ToxCurrentEnv
